import Mathlib

/-
Shallow embedding of the rpn-lang interpreter core (src/rpn-controller.cpp).
Strings are modelled as lists of characters (C++ std::string); the variant
stack values carry exact rationals in place of IEEE doubles (the source never
computes with doubles except to store parsed literals and NaN markers, which
are modelled explicitly).  Word bodies are a small inductive mirroring the
lambdas installed in the two dictionaries; bodies whose C++ lambda is an empty
stub returning 0 are modelled by the `stub` constructor.  diagnostic printf
output is modelled as a list of emitted lines; state-free dumps such as
print_stack and the word pretty-printer are abstracted to a single marker
line, since no observable state depends on them.
-/

namespace RpnLang

/-- Characters of a C++ std::string, in order. -/
abbrev Str := List Char

/-- Coerce a Lean string literal into the string type of the embedding. -/
def cs (x : String) : Str := x.data

/-- word[0] of a std::string: first character, the null character for the
empty string (C++11 guarantees operator[] at size() returns it). -/
def first (w : Str) : Char :=
  match w with
  | [] => Char.ofNat 0
  | c :: _ => c

/-- std::string::find(delim, 0): index of the first occurrence, none = npos. -/
def strFind (d : Char) : Str → Option Nat
  | [] => none
  | c :: t => if c = d then some 0 else (strFind d t).map (· + 1)

/-- nextWord (rpn-controller.cpp:24): splits buffer at the first delimiter.
Returns (word, remaining buffer, found position). -/
def nextWord (buffer : Str) (delim : Char) : Str × Str × Option Nat :=
  match strFind delim buffer with
  | none => (buffer, [], none)
  | some p => (buffer.take p, buffer.drop (p + 1), some p)

/-- A C++ double as stored on the stack: either an exact (rational) value or
the NaN marker produced by std::nan("").  Rounding of decimal literals to
binary is abstracted: parsed values are kept exact. -/
inductive Dbl where
  | num (q : ℚ)
  | nan
deriving DecidableEq, Repr

/-- stacktype_t = std::variant<double, long, std::string, Vec3>. -/
inductive Stacktype where
  | st_double (x : Dbl)
  | st_integer (n : ℤ)
  | st_string (s : Str)
  | st_vec3 (x y z : Dbl)
deriving DecidableEq, Repr

/-- variant index; the comment in the source fixes the order to the enum. -/
def styIndex : Stacktype → Nat
  | .st_double _ => 0
  | .st_integer _ => 1
  | .st_string _ => 2
  | .st_vec3 _ _ _ => 3

/-- datatype_t enum (rpn-controller.cpp:49). -/
inductive datatype_t where
  | st_double
  | st_integer
  | st_string
  | st_vec3
  | st_number
  | st_any
deriving DecidableEq, Repr

/-- numeric enum value of a datatype_t. -/
def dtValue : datatype_t → Nat
  | .st_double => 0
  | .st_integer => 1
  | .st_string => 2
  | .st_vec3 => 3
  | .st_number => 4
  | .st_any => 5

/-- operator==(const datatype_t &, const size_t &) (rpn-controller.cpp:272):
match of a parameter tag against a variant index. -/
def dtEq (dt : datatype_t) (index : Nat) : Bool :=
  match dt with
  | .st_double | .st_integer | .st_string | .st_vec3 => dtValue dt == index
  | .st_number => (dtValue .st_double == index) || (dtValue .st_integer == index)
  | .st_any => true

/-- param_t: named, typed parameter of a word. -/
structure param_t where
  name : Str
  type : datatype_t
deriving DecidableEq, Repr

/-- Bodies of the dictionary lambdas.  `stub` stands for the many C++ lambdas
that only declare `rv = 0; return rv;`.  `user wl` is the closure installed by
the `;` word, capturing the collected token list by value. -/
inductive WordBody where
  | stub
  | printStack
  | strLiteral
  | comment
  | colon
  | dup
  | drop
  | toX
  | toY
  | toZ
  | semicolon
  | user (wl : List Str)
deriving DecidableEq, Repr

/-- word_t (rpn-controller.cpp:131): description, parameter alternatives,
body. -/
structure word_t where
  description : Str
  params : List (List param_t)
  eval : WordBody
deriving DecidableEq, Repr

/-- A dictionary: association list in source order.  Lookup takes the first
match, which coincides with std::map semantics because map construction from
an initializer list keeps the first entry of a duplicated key. -/
abbrev Dict := List (Str × word_t)

/-- std::map::find: first entry with the given key. -/
def dictFind (d : Dict) (k : Str) : Option word_t :=
  match d with
  | [] => none
  | (k', v) :: t => if k' = k then some v else dictFind t k

/-- std::map::operator[] followed by assignment: replace the entry of the key
if present, else add it. -/
def dictInsert (k : Str) (v : word_t) : Dict → Dict
  | [] => [(k, v)]
  | (k', v') :: t => if k' = k then (k, v) :: t else (k', v') :: dictInsert k v t

/-- Value of a character as a digit in the given base (hex letters allowed for
base 16), none when the character is not a digit of that base. -/
def digitInBase (base : Nat) (c : Char) : Option Nat :=
  if c.isDigit ∧ c.toNat - '0'.toNat < base then some (c.toNat - '0'.toNat)
  else if base = 16 ∧ 'a' ≤ c ∧ c ≤ 'f' then some (c.toNat - 'a'.toNat + 10)
  else if base = 16 ∧ 'A' ≤ c ∧ c ≤ 'F' then some (c.toNat - 'A'.toNat + 10)
  else none

/-- Accumulate the longest prefix of digits of the given base. -/
def accumDigits (base : Nat) : Nat → Str → Nat
  | acc, [] => acc
  | acc, c :: t =>
    match digitInBase base c with
    | some d => accumDigits base (acc * base + d) t
    | none => acc

/-- strtol(word, nullptr, 0) as called on a word whose first byte is a digit:
C-style base detection — leading "0x"/"0X" means base 16, a leading "0" means
base 8, anything else base 10; the longest valid digit prefix is converted.
Sign and whitespace handling never apply at this call site (the first byte is
a digit), and overflow clamping to LONG_MAX is abstracted. -/
def strtol0 (w : Str) : ℤ :=
  match w with
  | '0' :: c :: t =>
    if c = 'x' ∨ c = 'X' then (accumDigits 16 0 t : ℤ)
    else (accumDigits 8 0 (c :: t) : ℤ)
  | w => (accumDigits 10 0 w : ℤ)

/-- Longest decimal-digit prefix: (value, number of digits, rest). -/
def decDigits : Str → Nat × Nat × Str
  | [] => (0, 0, [])
  | c :: t =>
    if c.isDigit then
      let r := decDigits t
      ((c.toNat - '0'.toNat) * 10 ^ r.2.1 + r.1, r.2.1 + 1, r.2.2)
    else (0, 0, c :: t)

/-- strtod(word, nullptr) as called on a word whose first byte is a digit and
which contains a dot: decimal fixed-point parse of the longest valid prefix.
Exponent suffixes, hexadecimal floats and IEEE rounding are abstracted — the
parsed value is kept exact. -/
def strtodQ (w : Str) : ℚ :=
  let ip := decDigits w
  match ip.2.2 with
  | '.' :: t =>
    let fp := decDigits t
    (ip.1 : ℚ) + (fp.1 : ℚ) / (10 : ℚ) ^ fp.2.1
  | _ => (ip.1 : ℚ)

/-- top_of_stack_types (rpn-controller.cpp:255): variant indices of the top n
stack values, listed deepest-first (the reverse iterator starts n-1 below the
top and walks back up); empty when the stack holds fewer than n values.  The
stack is a list with the head as top of stack (the back of the deque). -/
def top_of_stack_types (stk : List Stacktype) (n : Nat) : List Nat :=
  if stk.length < n then []
  else ((stk.take n).map styIndex).reverse

/-- Inner loop of validate_stack_for_word: every parameter matched against the
corresponding collected index, with short-circuit. -/
def checkPred (p : List param_t) (tv : List Nat) : Bool :=
  (p.zip tv).all fun q => dtEq q.1.type q.2

/-- Alternative loop of validate_stack_for_word: runs while rv is false. -/
def validate_alts (stk : List Stacktype) : Bool → List (List param_t) → Bool
  | rv, [] => rv
  | rv, p :: ps =>
    if rv then validate_alts stk rv ps
    else
      let tv := top_of_stack_types stk p.length
      validate_alts stk (if tv.length ≠ 0 then checkPred p tv else rv) ps

/-- validate_stack_for_word (rpn-controller.cpp:295). -/
def validate_stack_for_word (de : word_t) (stk : List Stacktype) : Bool :=
  let rv0 : Bool :=
    (de.params.length == 0) ||
      ((de.params.length == 1) && ((de.params.headD []).length == 0))
  validate_alts stk rv0 de.params

/-- stack_push (rpn-controller.cpp:183): the back of the deque is the top of
stack, modelled as the list head. -/
def stack_push (val : Stacktype) (stk : List Stacktype) : List Stacktype :=
  val :: stk

/-- stack_pop (rpn-controller.cpp:187).  Popping an empty stack is undefined
behaviour in the source (back() of an empty deque); it is modelled by an
arbitrary fixed value and never reached through validated paths. -/
def stack_pop (stk : List Stacktype) : Stacktype × List Stacktype :=
  match stk with
  | [] => (.st_integer 0, [])
  | v :: t => (v, t)

/-- stack_pop_as_double (rpn-controller.cpp:193): doubles pass through,
integers convert, strings and Vec3 yield NaN. -/
def stack_pop_as_double (stk : List Stacktype) : Dbl × List Stacktype :=
  let r := stack_pop stk
  match r.1 with
  | .st_double d => (d, r.2)
  | .st_integer n => (.num (n : ℚ), r.2)
  | _ => (.nan, r.2)

/-- The private interpreter state (rpn-controller.cpp:152, fields of
RpnCncController::Privates). -/
structure RpnState where
  runtimeDictionary : Dict
  compiletimeDictionary : Dict
  isCompiling : Bool
  newWord : Str
  newDefinition : List Str
  stack : List Stacktype
deriving DecidableEq, Repr

/-- Result of one evaluator invocation: the updated state, the updated
remaining buffer (C++ rest, passed by reference), the returned
std::string::size_type (none = std::string::npos, the NOT_FOUND sentinel),
and the diagnostic lines printed. -/
structure EvalOut where
  state : RpnState
  rest : Str
  ret : Option Nat
  out : List Str
deriving DecidableEq, Repr

/-- Type of the evaluator passed to word bodies for re-entrant calls
(user-defined words call back into Privates::eval). -/
abbrev Ev := RpnState → Str → Str → EvalOut

/-- user_eval (rpn-controller.cpp:166): evaluate each stored token in order,
each with a fresh empty remainder; all inner results are discarded. -/
def user_eval (ev : Ev) (st : RpnState) (wordlist : List Str) :
    RpnState × List Str :=
  wordlist.foldl
    (fun acc w =>
      let r := ev acc.1 w []
      (r.state, acc.2 ++ r.out))
    (st, [])

/-- parse_comment (rpn-controller.cpp:437): consume rest up to the closing
parenthesis.  The
error printf renders rest after nextWord has already emptied it, hence the
empty brackets in the modelled message. -/
def parse_comment (st : RpnState) (rest : Str) : EvalOut :=
  let r := nextWord rest ')'
  match r.2.2 with
  | some p => ⟨st, r.2.1, some p, []⟩
  | none =>
    ⟨st, r.2.1, none,
      [cs ("parse error in comment: terminating \x27)\x27 not found []")]⟩

/-- Dispatch of the installed lambdas (initializer of Privates::Privates,
rpn-controller.cpp:450).  Lambdas that only return 0 are `stub`.  print_stack
output is abstracted to one marker line (it has no state effect). -/
def exec_body (ev : Ev) (st : RpnState) (body : WordBody) (rest : Str) :
    EvalOut :=
  match body with
  | .stub => ⟨st, rest, some 0, []⟩
  | .printStack => ⟨st, rest, some 0, [cs ("<print_stack>")]⟩
  | .strLiteral =>
    let r := nextWord rest '"'
    match r.2.2 with
    | some p => ⟨{ st with stack := stack_push (.st_string r.1) st.stack },
        r.2.1, some p, []⟩
    | none =>
      ⟨st, r.2.1, some 0,
        [cs ("parse error in string literal: terminating \x27\x22\x27 not found []")]⟩
  | .comment => parse_comment st rest
  | .colon => ⟨{ st with isCompiling := true }, rest, some 0, []⟩
  | .dup =>
    match st.stack with
    | [] => ⟨st, rest, some 0, []⟩
    | v :: t => ⟨{ st with stack := stack_push v (v :: t) }, rest, some 0, []⟩
  | .drop =>
    let r := stack_pop st.stack
    ⟨{ st with stack := r.2 }, rest, some 0, []⟩
  | .toX =>
    let r := stack_pop_as_double st.stack
    ⟨{ st with stack := stack_push (.st_vec3 r.1 .nan .nan) r.2 }, rest, some 0, []⟩
  | .toY =>
    let r := stack_pop_as_double st.stack
    ⟨{ st with stack := stack_push (.st_vec3 .nan r.1 .nan) r.2 }, rest, some 0, []⟩
  | .toZ =>
    let r := stack_pop_as_double st.stack
    ⟨{ st with stack := stack_push (.st_vec3 .nan .nan r.1) r.2 }, rest, some 0, []⟩
  | .semicolon =>
    ⟨{ st with
        runtimeDictionary :=
          dictInsert st.newWord
            ⟨cs ("user ") ++ st.newWord, [], .user st.newDefinition⟩
            st.runtimeDictionary,
        isCompiling := false,
        newWord := [],
        newDefinition := [] }, rest, some 0, []⟩
  | .user wl =>
    let r := user_eval ev st wl
    ⟨r.1, rest, some 0, r.2⟩

/-- compiletime_eval (rpn-controller.cpp:318). -/
def compiletime_eval (ev : Ev) (st : RpnState) (word rest : Str) : EvalOut :=
  if st.newWord = [] then ⟨{ st with newWord := word }, rest, some 0, []⟩
  else
    match dictFind st.compiletimeDictionary word with
    | some cw => exec_body ev st cw.eval rest
    | none =>
      if (first word).isDigit then
        ⟨{ st with newDefinition := st.newDefinition ++ [word] }, rest, some 0, []⟩
      else
        match dictFind st.runtimeDictionary word with
        | some _ =>
          ⟨{ st with newDefinition := st.newDefinition ++ [word] }, rest, some 0, []⟩
        | none =>
          ⟨st, rest, none,
            [cs ("unrecognized word at compile time: \x27") ++ word ++ cs ("\x27")]⟩

/-- runtime_eval (rpn-controller.cpp:350).  On a validation failure the
source prints the offending stack and word record as well; only the leading
diagnostic line is modelled (the dumps have no state effect). -/
def runtime_eval (ev : Ev) (st : RpnState) (word rest : Str) : EvalOut :=
  if (first word).isDigit then
    if word.contains '.' then
      ⟨{ st with stack := stack_push (.st_double (.num (strtodQ word))) st.stack },
        rest, some 0, []⟩
    else
      ⟨{ st with stack := stack_push (.st_integer (strtol0 word)) st.stack },
        rest, some 0, []⟩
  else
    match dictFind st.runtimeDictionary word with
    | some we =>
      if validate_stack_for_word we st.stack then exec_body ev st we.eval rest
      else
        ⟨st, rest, some 0,
          [cs ("parameters not right for \x27") ++ word ++ cs ("\x27")]⟩
    | none =>
      ⟨st, rest, some 0, [cs ("not found \x27") ++ word ++ cs ("\x27 in dict")]⟩

/-- eval (rpn-controller.cpp:380): empty words are ignored, otherwise the
word is dispatched on isCompiling.  The fuel bounds the nesting depth of
user-word re-entry; exhaustion (never reached in this development) is
modelled as the no-op return 0. -/
def eval : Nat → RpnState → Str → Str → EvalOut
  | _, st, [], rest => ⟨st, rest, some 0, []⟩
  | 0, st, _ :: _, rest => ⟨st, rest, some 0, []⟩
  | f + 1, st, c :: t, rest =>
    if st.isCompiling then compiletime_eval (eval f) st (c :: t) rest
    else runtime_eval (eval f) st (c :: t) rest

/-- Result of RpnCncController::parse: the returned bool, the final state and
the printed diagnostics. -/
structure ParseOut where
  result : Bool
  state : RpnState
  out : List Str
deriving DecidableEq, Repr

/-- parse (rpn-controller.cpp:402): split the line at spaces, evaluate each
word with the rest of the line as its consumable remainder; the return value
s of the evaluator is ignored and rv stays true.  Fuel bounds the loop. -/
def parse : Nat → RpnState → Str → ParseOut
  | _, st, [] => ⟨true, st, []⟩
  | 0, st, _ :: _ => ⟨true, st, []⟩
  | f + 1, st, c :: t =>
    let w := nextWord (c :: t) ' '
    let r := eval f st w.1 w.2.1
    let k := parse f r.state r.rest
    ⟨k.result, k.state, r.out ++ k.out⟩

/-- The field _runtimeDictionary as populated by Privates::Privates
(rpn-controller.cpp:452), entries in source order.  The Divide entry is keyed
"*" in the source (a duplicate of Multiply; std::map keeps the first).
Literal braces and apostrophes in the copied description strings are written
as character escapes. -/
def initRuntimeDictionary : Dict := [
  (cs ("ABS"), ⟨cs ("Absolute Value (x -- |x|)"),
    [[⟨cs ("x"), .st_number⟩], [⟨cs ("v"), .st_vec3⟩]], .stub⟩),
  (cs ("COS"), ⟨cs ("Cosine (angle -- cos(angle))"),
    [[⟨cs ("angle"), .st_number⟩]], .stub⟩),
  (cs ("ACOS"), ⟨cs ("Arc-Cosine (x -- acos(x))"),
    [[⟨cs ("x"), .st_number⟩]], .stub⟩),
  (cs ("SIN"), ⟨cs ("Sine (angle -- sin(angle))"),
    [[⟨cs ("angle"), .st_number⟩]], .stub⟩),
  (cs ("ASIN"), ⟨cs ("Arc Sine (x -- asin(x))"),
    [[⟨cs ("x"), .st_number⟩]], .stub⟩),
  (cs ("TAN"), ⟨cs ("Tangent (angle -- tan(angle))"),
    [[⟨cs ("angle"), .st_number⟩]], .stub⟩),
  (cs ("ATAN"), ⟨cs ("Arc-Tangent (x -- atan(x))"),
    [[⟨cs ("x"), .st_number⟩]], .stub⟩),
  (cs ("ATAN2"), ⟨cs ("Arc-Tangent of two variables (y x -- atan2(y,x))"),
    [[⟨cs ("y"), .st_number⟩, ⟨cs ("x"), .st_number⟩]], .stub⟩),
  (cs ("NEG"), ⟨cs ("Negate (x -- -x)"),
    [[⟨cs ("x"), .st_number⟩]], .stub⟩),
  (cs ("SQRT"), ⟨cs ("Square Root (x -- sqrt(x) )"),
    [[⟨cs ("x"), .st_number⟩]], .stub⟩),
  (cs ("SQ"), ⟨cs ("Square (x -- x^2)"),
    [[⟨cs ("x"), .st_number⟩]], .stub⟩),
  (cs ("POW"), ⟨cs ("Exponentation (x y -- x^y)"),
    [[⟨cs ("x"), .st_number⟩, ⟨cs ("y"), .st_number⟩]], .stub⟩),
  (cs ("INV"), ⟨cs ("Invert (x -- 1/x))"),
    [[⟨cs ("x"), .st_number⟩]], .stub⟩),
  (cs ("PI"), ⟨cs ("The constant PI"), [[]], .stub⟩),
  (cs ("+"), ⟨cs ("Addition (x y -- x+y)"),
    [[⟨cs ("x"), .st_number⟩, ⟨cs ("y"), .st_number⟩],
     [⟨cs ("vx"), .st_vec3⟩, ⟨cs ("vx"), .st_vec3⟩]], .stub⟩),
  (cs ("-"), ⟨cs ("Subtract (x y -- y-x)"),
    [[⟨cs ("x"), .st_number⟩, ⟨cs ("y"), .st_number⟩],
     [⟨cs ("vx"), .st_vec3⟩, ⟨cs ("vy"), .st_vec3⟩]], .stub⟩),
  (cs ("*"), ⟨cs ("Multiply (x y -- x*y)"),
    [[⟨cs ("x"), .st_number⟩, ⟨cs ("y"), .st_number⟩]], .stub⟩),
  (cs ("*"), ⟨cs ("Divide (x y -- y/x)"),
    [[⟨cs ("x"), .st_number⟩, ⟨cs ("y"), .st_number⟩]], .stub⟩),
  (cs ("EVAL"), ⟨cs ("Evaluate string as an algebraic expression"),
    [[⟨cs ("expr"), .st_string⟩]], .stub⟩),
  (cs (".S"), ⟨cs ("print stack"), [[]], .printStack⟩),
  (cs (".\x22"), ⟨cs ("String literal"), [[]], .strLiteral⟩),
  (cs ("("), ⟨cs ("Commment"), [[]], .comment⟩),
  (cs (":"), ⟨cs ("Define new word"), [[]], .colon⟩),
  (cs ("STO"), ⟨cs ("store variable"),
    [[⟨cs ("val"), .st_number⟩, ⟨cs ("var"), .st_string⟩]], .stub⟩),
  (cs ("CONCAT"), ⟨cs ("String concatenation"),
    [[⟨cs ("s1"), .st_string⟩, ⟨cs ("a2"), .st_any⟩],
     [⟨cs ("a1"), .st_any⟩, ⟨cs ("s2"), .st_string⟩]], .stub⟩),
  (cs ("DUP"), ⟨cs ("Duplicate top of stack"),
    [[⟨cs ("s1"), .st_any⟩]], .dup⟩),
  (cs ("DROP"), ⟨cs ("Drop top of stack"),
    [[⟨cs ("s1"), .st_any⟩]], .drop⟩),
  (cs ("OVER"), ⟨cs ("Copy second stack item to top"),
    [[⟨cs ("s1"), .st_any⟩, ⟨cs ("s2"), .st_any⟩]], .stub⟩),
  (cs ("ROLL+"),
    ⟨cs ("Roll stack so that top goes to the bottom ( t1 t2 ... b -- t2 ... b t1 )"),
    [[]], .stub⟩),
  (cs ("ROLL-"),
    ⟨cs ("Roll stack so that bottom goes to the top ( t ... b2 b1 -- b1 t ... b2 )"),
    [[]], .stub⟩),
  (cs ("->STR"), ⟨cs ("Convert top of stack to a string ( val -- str )"),
    [[⟨cs ("v1"), .st_any⟩]], .stub⟩),
  (cs ("STR->"), ⟨cs ("Parse string at top of stack to another type ( str -- val )"),
    [[⟨cs ("v1"), .st_string⟩]], .stub⟩),
  (cs ("->\x7bX\x7d"),
    ⟨cs ("Convert value on top of stack to X component of vec3 ( x -- \x7bx,,\x7d )"),
    [[⟨cs ("X"), .st_number⟩]], .toX⟩),
  (cs ("->\x7bY\x7d"),
    ⟨cs ("Convert value on top of stack to Y component of vec3 ( y -- \x7b,y,\x7d )"),
    [[⟨cs ("Y"), .st_number⟩]], .toY⟩),
  (cs ("->\x7bZ\x7d"),
    ⟨cs ("Convert value on top of stack to Z component of vec3 ( z -- \x7b,,z\x7d )"),
    [[⟨cs ("Z"), .st_number⟩]], .toZ⟩),
  (cs ("\x7b\x7d->"), ⟨cs ("Convert vector to components on stack ( v -- x y z )"),
    [[⟨cs ("v1"), .st_vec3⟩]], .stub⟩),
  (cs ("MPOS->"), ⟨cs ("Push Machine Position to the stack. ( -- mpos )"),
    [[]], .stub⟩),
  (cs ("WPOS->"), ⟨cs ("Push Work Position to the stack. ( -- wpos )"),
    [[]], .stub⟩),
  (cs ("->WPOS"), ⟨cs ("Set Work Position ( wpos -- )"),
    [[⟨cs ("newpos"), .st_vec3⟩]], .stub⟩),
  (cs ("SPEED->"), ⟨cs ("Push Spindle Speed to the stack. ( -- speed )"),
    [[]], .stub⟩),
  (cs ("->SPEED"), ⟨cs ("Set Spindle Speed ( speed -- )"),
    [[⟨cs ("speed"), .st_number⟩]], .stub⟩),
  (cs ("FEED->"), ⟨cs ("Push jog feed rate to the stack. ( -- feed )"),
    [[]], .stub⟩),
  (cs ("->FEED"), ⟨cs ("Set jog feed rate ( feed -- )"),
    [[⟨cs ("feed"), .st_number⟩]], .stub⟩),
  (cs ("JOG-R"), ⟨cs ("Jog to relative position ( pos -- )"),
    [[⟨cs ("offset"), .st_vec3⟩]], .stub⟩),
  (cs ("JOG-WA"), ⟨cs ("Jog to absolute work position ( wpos -- )"),
    [[⟨cs ("wpos"), .st_vec3⟩]], .stub⟩),
  (cs ("JOG-MA"), ⟨cs ("Jog to absolute machine position ( mpos -- )"),
    [[⟨cs ("mpos"), .st_vec3⟩]], .stub⟩),
  (cs ("PROBE"), ⟨cs ("Probe machine (target feed -- )"),
    [[⟨cs ("target"), .st_vec3⟩, ⟨cs ("feed"), .st_number⟩]], .stub⟩),
  (cs ("MODAL-STATE->"),
    ⟨cs ("Push machine\x27s modal state on the stack ( -- state )"),
    [[]], .stub⟩),
  (cs ("->MODAL-STATE"), ⟨cs ("Send modal state to the machine ( state -- )"),
    [[⟨cs ("state"), .st_string⟩]], .stub⟩),
  (cs ("SEND"), ⟨cs ("Send command"),
    [[⟨cs ("g-code"), .st_string⟩]], .stub⟩)
]

/-- The field _compiletimeDictionary as populated by Privates::Privates
(rpn-controller.cpp:934). -/
def initCompiletimeDictionary : Dict := [
  (cs (";"), ⟨cs ("End Definition"), [[]], .semicolon⟩),
  (cs ("("), ⟨cs ("Commment"), [[]], .comment⟩)
]

/-- Interpreter state right after RpnCncController construction: dictionaries
loaded, not compiling, no pending definition, empty stack. -/
def initState : RpnState :=
  ⟨initRuntimeDictionary, initCompiletimeDictionary, false, [], [], []⟩

/-- Following the wording of the spec (§4.7), for comparison with the
validator of the source: a strict signature [t1..tk] validates iff the depth is at least k
and, for i in 1..k, the value at stack position i counted from the top
(position 1 = topmost) matches t_i. -/
def specStrictValidate (sig : List datatype_t) (stk : List Stacktype) : Bool :=
  decide (sig.length ≤ stk.length) &&
    (sig.zip (stk.take sig.length)).all fun q => dtEq q.1 (styIndex q.2)

/-- strFind misses exactly when no position holds the delimiter. -/
theorem strFind_none_of (d : Char) (l : Str)
    (h : ∀ j, j < l.length → l[j]? ≠ some d) : strFind d l = none := by
  induction l with
  | nil => rfl
  | cons c t ih =>
    have hc : ¬ c = d := by
      intro hcd
      exact h 0 (Nat.succ_pos _) (by simp [hcd])
    have ht : strFind d t = none := by
      refine ih fun j hj hget => ?_
      exact h (j + 1) (Nat.succ_lt_succ hj) (by simpa using hget)
    simp [strFind, hc, ht]

/-- strFind returns the first position holding the delimiter. -/
theorem strFind_some_of (d : Char) (l : Str) (p : Nat)
    (h1 : l[p]? = some d) (h2 : ∀ j, j < p → l[j]? ≠ some d) :
    strFind d l = some p := by
  induction l generalizing p with
  | nil => simp at h1
  | cons c t ih =>
    cases p with
    | zero =>
      have : c = d := by simpa using h1
      simp [strFind, this]
    | succ p =>
      have hc : ¬ c = d := by
        intro hcd
        exact h2 0 (Nat.succ_pos _) (by simp [hcd])
      have ht : strFind d t = some p := by
        refine ih p (by simpa using h1) fun j hj hget => ?_
        exact h2 (j + 1) (Nat.succ_lt_succ hj) (by simpa using hget)
      simp [strFind, hc, ht]

/-- C7: nextWord splits the buffer at the first occurrence of the delimiter:
when the delimiter first occurs at position p, the word is the characters
before p, the remaining buffer is the characters after p and the result is p;
when it does not occur, the word is the whole buffer, the remainder is empty
and the result is the NOT_FOUND sentinel. -/
theorem C7_nextWord_spec : ∀ (buf : Str) (d : Char),
    ((∀ j, j < buf.length → buf[j]? ≠ some d) → nextWord buf d = (buf, [], none)) ∧
    (∀ p, buf[p]? = some d → (∀ j, j < p → buf[j]? ≠ some d) →
      nextWord buf d = (buf.take p, buf.drop (p + 1), some p)) := by
  intro buf d
  constructor
  · intro h
    unfold nextWord
    rw [strFind_none_of d buf h]
  · intro p h1 h2
    unfold nextWord
    rw [strFind_some_of d buf p h1 h2]

/-- C7 witness: splitting "ab cd" at the space found at position 2. -/
theorem C7_witness : nextWord (cs ("ab cd")) ' ' = (cs ("ab"), cs ("cd"), some 2) :=
  (C7_nextWord_spec (cs ("ab cd")) ' ').2 2 (by decide) (by decide)

/-- C8: pushing any value of any variant and then popping returns exactly
that value and restores the previous stack. -/
theorem C8_push_pop_roundtrip :
    ∀ (v : Stacktype) (s : List Stacktype), stack_pop (stack_push v s) = (v, s) := by
  intro v s
  rfl

/-- C9: evaluating the empty word (as produced by consecutive or trailing
delimiters) is a complete no-op: eval returns 0 and leaves the whole state —
stack, both dictionaries and the compilation state — as well as the remaining
buffer unchanged, printing nothing. -/
theorem C9_empty_word_noop :
    ∀ (f : Nat) (st : RpnState) (rest : Str),
      eval f st [] rest = ⟨st, rest, some 0, []⟩ := by
  intro f st rest
  cases f <;> rfl

/-- C10: in compile mode with no pending name, the next non-empty token is
adopted as the definition name unconditionally — no dictionary is consulted
and no digit test is made, so any token whatsoever (";", "(", a numeric
literal) becomes the name. -/
theorem C10_name_adoption :
    ∀ (f : Nat) (st : RpnState) (w rest : Str),
      st.isCompiling = true → st.newWord = [] → w ≠ [] →
      eval (f + 1) st w rest = ⟨{ st with newWord := w }, rest, some 0, []⟩ := by
  intro f st w rest hc hn hw
  obtain ⟨c, t, rfl⟩ := List.exists_cons_of_ne_nil hw
  simp [eval, hc, compiletime_eval, hn]

/-- C10 witness: a ";" immediately after ":" becomes the pending name. -/
theorem C10_witness :
    eval 1 { initState with isCompiling := true } (cs (";")) [] =
      ⟨{ initState with isCompiling := true, newWord := cs (";") }, [], some 0, []⟩ :=
  C10_name_adoption 0 { initState with isCompiling := true } (cs (";")) [] rfl rfl
    (by decide)

/-- C2 counterexample: evaluating the unknown word "zzz" in runtime mode does
not yield any distinct dict_error result — the evaluator returns 0, the very
value it returns on success, and the enclosing parse still reports success
(true); only the diagnostic line and the untouched state witness the
failure. -/
theorem C2_counterexample :
    (eval 1 initState (cs ("zzz")) []).ret = some 0 ∧
    (eval 1 initState (cs ("zzz")) []).ret = (eval 1 initState (cs ("5")) []).ret ∧
    (parse 5 initState (cs ("zzz"))).result = true ∧
    (parse 5 initState (cs ("zzz"))).state = initState := by
  decide

/-- C2 (amended): in runtime mode, evaluating a non-empty word whose first
byte is not an ASCII digit and which is absent from the runtime dictionary
prints the status line naming W (not found ... in dict, with W quoted) and
leaves the entire interpreter
state — in particular the stack — unchanged; however the evaluator returns 0,
the same value as success, so no distinct dict_error result is surfaced. -/
theorem C2_unknown_word :
    ∀ (f : Nat) (st : RpnState) (w rest : Str),
      st.isCompiling = false → w ≠ [] → (first w).isDigit = false →
      dictFind st.runtimeDictionary w = none →
      eval (f + 1) st w rest =
        ⟨st, rest, some 0, [cs ("not found \x27") ++ w ++ cs ("\x27 in dict")]⟩ := by
  intro f st w rest hc hw hd hl
  obtain ⟨c, t, rfl⟩ := List.exists_cons_of_ne_nil hw
  simp [eval, hc, runtime_eval, hd, hl]

/-- C2 witness: the word "zzz" against the freshly constructed state. -/
theorem C2_witness :
    eval 1 initState (cs ("zzz")) [] =
      ⟨initState, [], some 0, [cs ("not found \x27zzz\x27 in dict")]⟩ :=
  C2_unknown_word 0 initState (cs ("zzz")) [] rfl (by decide) (by decide) (by decide)

/-- C6: in runtime mode, a word whose first byte is an ASCII digit is pushed
as a numeric literal: with a dot it is parsed as a decimal double and pushed
as a Double, otherwise it is parsed with C-style base detection (leading 0x
or 0X means base 16, a leading 0 means base 8, else base 10) and pushed as an
Integer; nothing else changes and nothing is printed. -/
theorem C6_numeric_literal :
    (∀ (f : Nat) (st : RpnState) (w rest : Str),
      st.isCompiling = false → (first w).isDigit = true →
      eval (f + 1) st w rest =
        ⟨{ st with stack :=
            (if w.contains '.' then Stacktype.st_double (.num (strtodQ w))
             else Stacktype.st_integer (strtol0 w)) :: st.stack },
          rest, some 0, []⟩) ∧
    strtol0 (cs ("0x1f")) = 31 ∧ strtol0 (cs ("0X1f")) = 31 ∧
    strtol0 (cs ("017")) = 15 ∧ strtol0 (cs ("42")) = 42 ∧
    strtodQ (cs ("12.32")) = 1232 / 100 := by
  refine ⟨?_, by decide, by decide, by decide, by decide, ?_⟩
  · intro f st w rest hc hd
    cases w with
    | nil => simp [first] at hd
    | cons c t =>
      simp [eval, hc, runtime_eval, hd, stack_push]
      split <;> rfl
  · simp +decide [strtodQ, decDigits, cs]
    norm_num

/-- C6 witness: "12.32" pushes the Double 12.32, "017" pushes the octal
Integer 15. -/
theorem C6_witness :
    eval 1 initState (cs ("12.32")) [] =
      ⟨{ initState with stack := [.st_double (.num (strtodQ (cs ("12.32"))))] },
        [], some 0, []⟩ ∧
    eval 1 initState (cs ("017")) [] =
      ⟨{ initState with stack := [.st_integer 15] }, [], some 0, []⟩ := by
  constructor
  · have h := C6_numeric_literal.1 0 initState (cs ("12.32")) [] rfl (by decide)
    simpa using h
  · have h := C6_numeric_literal.1 0 initState (cs ("017")) [] rfl (by decide)
    simpa using h

/-- C1 counterexample: in the line ": w zzz 1" the evaluator invocation on
"zzz" (at the state reached after ": w") returns the NOT_FOUND sentinel, yet
parse neither stops — the following word "1" is still processed and lands in
the pending definition — nor returns an error: the result is true, the value
for ok. -/
theorem C1_counterexample :
    (eval 5 (parse 10 initState (cs (": w"))).state (cs ("zzz")) []).ret = none ∧
    (parse 10 initState (cs (": w zzz 1"))).result = true ∧
    (parse 10 initState (cs (": w zzz 1"))).state.newDefinition = [cs ("1")] := by
  decide

/-- C1 (amended): parse processes the words of the line left to right but
ignores every evaluator result: it never stops early on the NOT_FOUND
sentinel, accumulates no severity, and returns true (the ok value) for every
input line and every starting state. -/
theorem C1_parse_always_true :
    ∀ (f : Nat) (st : RpnState) (line : Str), (parse f st line).result = true := by
  intro f
  induction f with
  | zero => intro st line; cases line <;> rfl
  | succ f ih =>
    intro st line
    cases line with
    | nil => rfl
    | cons c t =>
      simp only [parse]
      exact ih _ _

/-- C4: of the four arithmetic words only "+", "-" and "*" are present in the
freshly constructed runtime dictionary; "/" is absent — the Divide entry is
keyed "*" in the source, a duplicate that std::map construction discards — so
evaluating "/" hits the not-found path and leaves the state unchanged. -/
theorem C4_division_key_missing :
    (dictFind initRuntimeDictionary (cs ("+"))).isSome = true ∧
    (dictFind initRuntimeDictionary (cs ("-"))).isSome = true ∧
    (dictFind initRuntimeDictionary (cs ("*"))).isSome = true ∧
    dictFind initRuntimeDictionary (cs ("/")) = none ∧
    eval 1 initState (cs ("/")) [] =
      ⟨initState, [], some 0, [cs ("not found \x27/\x27 in dict")]⟩ := by
  decide

/-- C5: evaluating ";" in compile mode with a pending name installs into the
runtime dictionary, under that name, an entry whose body re-interprets the
captured token sequence in order (the user body closing over the collected
newDefinition), silently replacing any existing entry of that name (dictFind
after dictInsert always yields the new entry), and resets the compilation
state: isCompiling false, newWord empty, newDefinition empty. -/
theorem C5_semicolon_installs :
    (∀ (f : Nat) (st : RpnState) (rest : Str),
      st.isCompiling = true → st.newWord ≠ [] →
      st.compiletimeDictionary = initCompiletimeDictionary →
      eval (f + 1) st (cs (";")) rest =
        ⟨{ st with
            runtimeDictionary :=
              dictInsert st.newWord
                ⟨cs ("user ") ++ st.newWord, [], .user st.newDefinition⟩
                st.runtimeDictionary,
            isCompiling := false,
            newWord := [],
            newDefinition := [] }, rest, some 0, []⟩) ∧
    (∀ (k : Str) (v : word_t) (dct : Dict), dictFind (dictInsert k v dct) k = some v) := by
  constructor
  · intro f st rest hc hn hd
    simp [eval, hc, compiletime_eval, hn, hd, initCompiletimeDictionary, dictFind,
      exec_body, cs]
  · intro k v dct
    induction dct with
    | nil => simp [dictInsert, dictFind]
    | cons e t ih =>
      by_cases h : e.1 = k
      · simp [dictInsert, dictFind, h]
      · simp [dictInsert, dictFind, h, ih]

/-- C5 witness: closing the definition ": sq DUP ;" from the state collected
after ": sq DUP". -/
theorem C5_witness :
    eval 1
      ⟨initRuntimeDictionary, initCompiletimeDictionary, true, cs ("sq"),
        [cs ("DUP")], []⟩ (cs (";")) [] =
      ⟨⟨dictInsert (cs ("sq")) ⟨cs ("user sq"), [], .user [cs ("DUP")]⟩
          initRuntimeDictionary,
        initCompiletimeDictionary, false, [], [], []⟩, [], some 0, []⟩ :=
  C5_semicolon_installs.1 0
    ⟨initRuntimeDictionary, initCompiletimeDictionary, true, cs ("sq"),
      [cs ("DUP")], []⟩ [] rfl (by decide) rfl

/-- Pushing the tag projection through a zipped pair list. -/
theorem all_map_styIndex (l : List (param_t × Stacktype)) :
    (List.map (Prod.map id styIndex) l).all (fun q => dtEq q.1.type q.2) =
      l.all fun q => dtEq q.1.type (styIndex q.2) := by
  induction l with
  | nil => rfl
  | cons e t ih => simp [List.all_cons, ih, Prod.map]

/-- C3 counterexample: the STO entry carries the strict signature
[Number, String]; on the stack whose topmost value is the String "a" with the
Integer 5 below it, the top-down matching of the claim (position 1 against t_1 =
Number) rejects, yet the source validator accepts: the signature is in fact
matched bottom-up. -/
theorem C3_counterexample :
    dictFind initRuntimeDictionary (cs ("STO")) =
      some ⟨cs ("store variable"),
        [[⟨cs ("val"), .st_number⟩, ⟨cs ("var"), .st_string⟩]], .stub⟩ ∧
    validate_stack_for_word
      ⟨cs ("store variable"),
        [[⟨cs ("val"), .st_number⟩, ⟨cs ("var"), .st_string⟩]], .stub⟩
      [.st_string (cs ("a")), .st_integer 5] = true ∧
    specStrictValidate [.st_number, .st_string]
      [.st_string (cs ("a")), .st_integer 5] = false := by
  decide

/-- C3 (amended): for a word carrying one strict type signature [t1..tk],
validation succeeds iff the stack depth is at least k and, for each i, t_i
matches the value at stack position k+1-i counted from the top — i.e. the
signature is matched bottom-up within the top-k window (t_k against the
topmost value), with Integer/Double/String/Vec3 matching only their own tag,
Number matching Integer or Double and Any matching every tag; and the word
body is invoked only when validation succeeds: on a validation failure the
evaluator leaves the state and buffer unchanged, returns 0 and prints only
the diagnostic. -/
theorem C3_validator_bottom_up :
    (∀ (d : Str) (b : WordBody) (sig : List param_t) (stk : List Stacktype),
      validate_stack_for_word ⟨d, [sig], b⟩ stk =
        (decide (sig.length ≤ stk.length) &&
          (sig.zip ((stk.take sig.length).reverse)).all
            fun q => dtEq q.1.type (styIndex q.2))) ∧
    (∀ (f : Nat) (st : RpnState) (w rest : Str) (we : word_t),
      st.isCompiling = false → (first w).isDigit = false → w ≠ [] →
      dictFind st.runtimeDictionary w = some we →
      validate_stack_for_word we st.stack = false →
      eval (f + 1) st w rest =
        ⟨st, rest, some 0,
          [cs ("parameters not right for \x27") ++ w ++ cs ("\x27")]⟩) := by
  constructor
  · intro d b sig stk
    cases sig with
    | nil => simp [validate_stack_for_word, validate_alts]
    | cons p pt =>
      have h1 : validate_stack_for_word ⟨d, [p :: pt], b⟩ stk =
          (if (top_of_stack_types stk (p :: pt).length).length ≠ 0 then
            checkPred (p :: pt) (top_of_stack_types stk (p :: pt).length)
          else false) := rfl
      rw [h1]
      by_cases hlen : stk.length < (p :: pt).length
      · have hle : ¬ ((p :: pt).length ≤ stk.length) := by omega
        rw [decide_eq_false hle]
        simp only [top_of_stack_types, if_pos hlen]
        simp
      · have hle : (p :: pt).length ≤ stk.length := by omega
        rw [decide_eq_true hle]
        simp only [top_of_stack_types, if_neg hlen]
        have htv : (((stk.take (p :: pt).length).map styIndex).reverse).length =
            pt.length + 1 := by
          rw [List.length_reverse, List.length_map, List.length_take,
            List.length_cons]
          have hle2 : pt.length + 1 ≤ stk.length := by simpa using hle
          exact Nat.min_eq_left hle2
        rw [if_pos (by rw [htv]; omega :
          (((stk.take (p :: pt).length).map styIndex).reverse).length ≠ 0)]
        simp only [checkPred]
        rw [← List.map_reverse]
        rw [List.zip_map_right]
        rw [all_map_styIndex]
        exact (Bool.true_and _).symm
  · intro f st w rest we hc hd hw hfind hval
    obtain ⟨c, t, rfl⟩ := List.exists_cons_of_ne_nil hw
    simp [eval, hc, runtime_eval, hd, hfind, hval]

/-- C3 witness: DROP (signature [Any]) on the empty stack fails validation
and its body is not invoked. -/
theorem C3_witness :
    eval 1 initState (cs ("DROP")) [] =
      ⟨initState, [], some 0, [cs ("parameters not right for \x27DROP\x27")]⟩ :=
  C3_validator_bottom_up.2 0 initState (cs ("DROP")) []
    ⟨cs ("Drop top of stack"), [[⟨cs ("s1"), .st_any⟩]], .drop⟩
    rfl (by decide) (by decide) (by decide) (by decide)

end RpnLang
